import Mathlib

/-!
Verification of the quick-input controller of
src/vs/workbench/browser/parts/quickinput/quickInput.ts.

The file shallowly embeds the controller code: each TypeScript handler body
becomes a pure Lean function on an explicit state record, and the
asynchronous completions (validator promises, candidate-list promises,
debounce timer expiry) become explicit events applied to the state.  All
line numbers in doc comments refer to quickInput.ts.
-/

namespace QuickInputModel

/-- Decoration severity shown on the input box: Severity.Ignore or
Severity.Error (the only two values used by quickInput.ts). -/
inductive Decoration where
  | ignore
  | error
deriving DecidableEq

/-- JavaScript truthiness of a possibly absent string message: null and
undefined and the empty string are falsy, every other string is truthy.
Used for the checks at lines 316, 317 and 326 of quickInput.ts. -/
def msgTruthy : Option String → Bool
  | none => false
  | some s => s ≠ ""

/-- TextInputParameters (quickInput.ts lines 72 to 80).  The validator
function itself is an external callback; the model keeps only whether one
was supplied, and validator completions are delivered as events. -/
structure TextInputParameters where
  value : Option String := none
  prompt : Option String := none
  hasValidator : Bool := false
deriving DecidableEq

/-- Message placed in the message area by the constructor (lines 297 to
299): the localized prompt text when parameters.prompt is truthy, else the
generic localized text.  The localize calls are external; their output is
modelled as plain concatenation. -/
def defaultMessage (params : TextInputParameters) : String :=
  if msgTruthy params.prompt then
    params.prompt.getD "" ++ " (Press Enter to confirm or Escape to cancel)"
  else
    "Press Enter to confirm your input or Escape to cancel"

/-- State of one TextInputController session together with the UI pieces it
touches.  result models the result promise: none while unsettled, some r
once resolved with r (a promise settles at most once).  pendingValidations
records the validateInput calls that have been issued and whose promise has
not yet completed. -/
structure TextInputState where
  inputValue : String
  validationValue : Option String
  message : String
  decoration : Decoration
  defaultMsg : String
  hasValidator : Bool
  result : Option (Option String)
  pendingValidations : List String
deriving DecidableEq

/-- Synchronous part of TextInputController.updatedValidation (lines 337 to
354): when a validator is present and the current input value differs from
this.validationValue, record the value as the new validationValue and issue
a validateInput request for it.  The asynchronous completion of the request
is delivered by TextInputEvent.complete below. -/
def updatedValidationStep (st : TextInputState) : TextInputState :=
  if st.hasValidator then
    if st.validationValue ≠ some st.inputValue then
      { st with validationValue := some st.inputValue,
                pendingValidations := st.pendingValidations ++ [st.inputValue] }
    else st
  else st

/-- TextInputController constructor (lines 287 to 311): the input box value
is parameters.value or the empty string, the message area shows the default
message, and when a validator is present and the initial value is a
non-empty (truthy) string, didChange() runs once, which issues the initial
validation request via updatedValidation.  The message update chained onto
that request is asynchronous and therefore not part of construction. -/
def mkTextInputController (params : TextInputParameters) : TextInputState :=
  let v := params.value.getD ""
  let dm := defaultMessage params
  let st0 : TextInputState :=
    { inputValue := v, validationValue := none, message := dm,
      decoration := Decoration.ignore, defaultMsg := dm,
      hasValidator := params.hasValidator, result := none,
      pendingValidations := [] }
  if params.hasValidator then
    if v ≠ "" then updatedValidationStep st0 else st0
  else st0

/-- Events that can reach a TextInputController session.
typeRaw s: the user edits the input box; the debounced change handler from
line 304 has not fired yet, so only ui.inputBox.value changes.
debounceFire: the debounced onDidChange handler fires, running didChange()
(line 305), whose synchronous part is updatedValidationStep.
complete v m: the validateInput promise issued for value v resolves with
message m (none models null or undefined). -/
inductive TextInputEvent where
  | typeRaw (s : String)
  | debounceFire
  | complete (v : String) (m : Option String)

/-- Delivery of a validator completion for requested value v with message m.
The continuation installed at lines 342 to 348 first checks whether
this.validationValue still equals the value the request was made for; if
not it throws canceled(), which the didChange chain at line 319 swallows,
so nothing is updated.  Otherwise the didChange continuation (lines 315 to
318) writes the message area (validationError or the default message,
JavaScript-truthiness on the message) and the decoration severity. -/
def completeStep (st : TextInputState) (v : String) (m : Option String) :
    TextInputState :=
  let st1 := { st with pendingValidations := st.pendingValidations.erase v }
  if st1.validationValue = some v then
    { st1 with
        message := if msgTruthy m then m.getD "" else st1.defaultMsg,
        decoration := if msgTruthy m then Decoration.error else Decoration.ignore }
  else st1

/-- One event applied to a TextInputController session. -/
def textInputStep (st : TextInputState) : TextInputEvent → TextInputState
  | TextInputEvent.typeRaw s => { st with inputValue := s }
  | TextInputEvent.debounceFire => updatedValidationStep st
  | TextInputEvent.complete v m => completeStep st v m

/-- Left fold of textInputStep over a list of events. -/
def textInputRun (st : TextInputState) : List TextInputEvent → TextInputState
  | [] => st
  | e :: es => textInputRun (textInputStep st e) es

/-- Resolving a promise that may already be settled: a promise resolves at
most once, so a second resolution is a no-op. -/
def settleResult (r : Option (Option String)) (v : Option String) :
    Option (Option String) :=
  match r with
  | none => some v
  | some r0 => some r0

/-- TextInputController.resolve with ok === true (lines 322 to 335),
evaluated at the moment the validation promise for the confirmed value
completes with message m, in the case where no other event runs in between
(so the stale check of line 344 passes).  The synchronous part issues
updatedValidation for the current value; when the completed message is
truthy the continuation throws canceled() and the result promise is left
untouched (second component true); otherwise resolveResult settles the
result promise with the current input box value. -/
def resolveConfirm (st : TextInputState) (m : Option String) :
    TextInputState × Bool :=
  let st1 := updatedValidationStep st
  if msgTruthy m then (st1, true)
  else ({ st1 with result := settleResult st1.result (some st1.inputValue) }, false)

/-- Last second component of a list of timed values, with default d.  Used
to name the value a trailing-edge debouncer delivers for a burst. -/
def lastSnd {α : Type} (d : α) : List (Nat × α) → α
  | [] => d
  | (_, v) :: l => lastSnd v l

/-- Modelled from the spec: debounceEvent from vs/base/common/event with
merge function (last, cur) => cur, as used at quickInput.ts lines 304 and
678; the implementation file is not among the supplied sources.  Spec
section 4.4: given values arriving at arbitrary rate and a minimum
inter-delivery interval, deliver only the most recent value once the
interval elapses with no newer arrival (classic trailing-edge debounce).
Each arriving event resets a timer of length w; acc is the merged (latest)
value and tLast the arrival time of the newest event.  An input event at
time t with t < tLast + w cancels the running timer; otherwise the timer
fired first and delivered acc.  Input times are taken nondecreasing. -/
def debounceAux {α : Type} (w : Nat) (acc : α) (tLast : Nat) :
    List (Nat × α) → List α
  | [] => [acc]
  | (t, v) :: rest =>
      if t < tLast + w then debounceAux w v t rest
      else acc :: debounceAux w v t rest

/-- Deliveries of the modelled trailing-edge debouncer over a full timed
input sequence. -/
def debounceDeliveries {α : Type} (w : Nat) : List (Nat × α) → List α
  | [] => []
  | (t, v) :: rest => debounceAux w v t rest

/-- Observable actions of QuickInputService.show, in program order:
resolvePrior id is the call this.controller.resolve() at line 735 (which
settles the prior result promise with undefined), attachNew id is the
assignment this.controller = this.createController(parameters) at line
745 followed by wiring the new controller to the UI. -/
inductive ShowAction where
  | resolvePrior (id : Nat)
  | attachNew (id : Nat)
deriving DecidableEq

/-- State of QuickInputService as far as show is concerned.  Controllers
are named by creation index: nextId is the index the next controller will
get, active models the single field this.controller (none when no
controller is set), and settledUndefined collects the controllers whose
result promise has been resolved with undefined. -/
structure ServiceState where
  nextId : Nat
  active : Option Nat
  settledUndefined : List Nat
deriving DecidableEq

/-- Well-formedness of a ServiceState: the active controller, if any, was
created earlier than any controller still to be created. -/
def ServiceStateWF (s : ServiceState) : Prop :=
  ∀ p, s.active = some p → p < s.nextId

/-- Synchronous body of QuickInputService.show (lines 731 to 746): when a
prior controller is set, call its resolve() with no argument, which settles
its result promise with undefined; then create the new controller and
attach it to the UI (this.controller is a single field, so attaching the
new controller detaches the prior one).  The function returns the new
state and the list of observable actions in the order they happen. -/
def showInput (s : ServiceState) : ServiceState × List ShowAction :=
  match s.active with
  | some p =>
      ({ nextId := s.nextId + 1, active := some s.nextId,
         settledUndefined := p :: s.settledUndefined },
       [ShowAction.resolvePrior p, ShowAction.attachNew s.nextId])
  | none =>
      ({ nextId := s.nextId + 1, active := some s.nextId,
         settledUndefined := s.settledUndefined },
       [ShowAction.attachNew s.nextId])

/-- Focus movement commands of the list surface (QuickInputList), spec
section 6: move focus First, Last, Next or Previous. -/
inductive FocusCmd where
  | first
  | last
  | next
  | previous
deriving DecidableEq

/-- Modelled from the spec: the focus semantics of the list surface
(QuickInputList is not among the supplied sources; spec section 6 lists the
operation move focus First, Last, Next or Previous).  Modelled as clamped
movement of the focused index over n visible items. -/
def applyFocusCmd (n : Nat) (idx : Option Nat) : FocusCmd → Option Nat
  | FocusCmd.first => if n = 0 then none else some 0
  | FocusCmd.last => if n = 0 then none else some (n - 1)
  | FocusCmd.next =>
      if n = 0 then none else
      match idx with
      | none => some 0
      | some i => some (min (i + 1) (n - 1))
  | FocusCmd.previous =>
      if n = 0 then none else
      match idx with
      | none => some 0
      | some i => some (i - 1)

/-- Keys distinguished by the input box onKeyDown handlers of the two pick
controllers. -/
inductive Key where
  | downArrow
  | upArrow
  | other
deriving DecidableEq

/-- Effect of one key on the list: which focus command is issued, and
whether DOM focus is moved into the list (ui.list.domFocus()). -/
structure KeyEffect where
  focusCmd : Option FocusCmd
  domFocus : Bool
deriving DecidableEq

/-- PickOneController input box onKeyDown handler (lines 149 to 158):
DownArrow issues focus Next, UpArrow issues focus Previous, and domFocus
is never called. -/
def pickOneOnKeyDown : Key → KeyEffect
  | Key.downArrow => { focusCmd := some FocusCmd.next, domFocus := false }
  | Key.upArrow => { focusCmd := some FocusCmd.previous, domFocus := false }
  | Key.other => { focusCmd := none, domFocus := false }

/-- PickManyController input box onKeyDown handler (lines 255 to 266):
DownArrow issues focus First and then ui.list.domFocus(), UpArrow issues
focus Last and then ui.list.domFocus(). -/
def pickManyOnKeyDown : Key → KeyEffect
  | Key.downArrow => { focusCmd := some FocusCmd.first, domFocus := true }
  | Key.upArrow => { focusCmd := some FocusCmd.last, domFocus := true }
  | Key.other => { focusCmd := none, domFocus := false }

/-- Focused index after the given handler processes key k on a list of n
items with current focus idx. -/
def keyFocusResult (handler : Key → KeyEffect) (k : Key) (n : Nat)
    (idx : Option Nat) : Option Nat :=
  match (handler k).focusCmd with
  | some cmd => applyFocusCmd n idx cmd
  | none => idx

/-- Argument of an InputController resolve call, type
true | Thenable of never | undefined (undefined when called with no
argument, as at line 735). -/
inductive JSResolveArg (Item : Type) where
  | okTrue
  | undef
  | thenableNever
deriving DecidableEq

/-- Value a result promise is resolved with, seen as a JavaScript value. -/
inductive JSValue (Item : Type) where
  | undef
  | item (x : Item)
  | boolTrue
  | thenableNever
deriving DecidableEq

/-- PickOneController resolve (line 119):
resolve(ok === true ? list.getFocusedElements()[0] : ok).  With ok === true
the promise is resolved with the first focused element, which is undefined
when no element is focused; with any other ok the promise is resolved with
ok itself. -/
def pickOneResolveValue {Item : Type} (focusedElements : List Item)
    (ok : JSResolveArg Item) : JSValue Item :=
  match ok with
  | JSResolveArg.okTrue =>
      match focusedElements.head? with
      | some x => JSValue.item x
      | none => JSValue.undef
  | JSResolveArg.undef => JSValue.undef
  | JSResolveArg.thenableNever => JSValue.thenableNever

/-- The resolve argument itself read as a JavaScript value, for comparing
the resolved value with the argument passed to resolve. -/
def argAsValue {Item : Type} : JSResolveArg Item → JSValue Item
  | JSResolveArg.okTrue => JSValue.boolTrue
  | JSResolveArg.undef => JSValue.undef
  | JSResolveArg.thenableNever => JSValue.thenableNever

/-- Subscription bookkeeping of a pick controller: closed is the private
closed flag, liveSubs the number of disposables currently registered in
this.disposables, disposedSubs the total number of disposables that have
been disposed so far. -/
structure PickController where
  closed : Bool
  liveSubs : Nat
  disposedSubs : Nat
deriving DecidableEq

/-- PickOneController.dispose and PickManyController.dispose (lines 211 to
214 and 271 to 274): set closed, dispose every registered disposable and
replace the list by the empty result of dispose(...). -/
def PickController.dispose (c : PickController) : PickController :=
  { closed := true, liveSubs := 0, disposedSubs := c.disposedSubs + c.liveSubs }

/-- The slice of the shared UI a pick controller updates when its candidate
list arrives: the item set of the list widget, the filter text last applied
to it, and the focused index.  The checkAll checkbox and the count badge
mirror queries on the list widget (getAllVisibleChecked, getCheckedCount),
which is not among the supplied sources, so they are not tracked. -/
structure ListUI (Item : Type) where
  elements : List Item
  filterText : String
  focused : Option Nat
deriving DecidableEq

/-- Continuation of parameters.picks in PickOneController (lines 130 to
160): if the closed flag is set, return with no effect; otherwise set the
delivered elements, re-apply the filter for the current input box value,
focus the first item, and register the three event subscriptions
(onDidChangeSelection, onDidChange, onKeyDown). -/
def pickOnePicksDelivered {Item : Type} (c : PickController)
    (ui : ListUI Item) (inputBoxValue : String) (elements : List Item) :
    PickController × ListUI Item :=
  if c.closed then (c, ui)
  else
    ({ c with liveSubs := c.liveSubs + 3 },
     { elements := elements, filterText := inputBoxValue,
       focused := applyFocusCmd elements.length ui.focused FocusCmd.first })

/-- Continuation of parameters.picks in PickManyController (lines 241 to
268): if the closed flag is set, return with no effect; otherwise set the
delivered elements, re-apply the filter for the current input box value
(focus is not moved), and register the two event subscriptions
(onDidChange, onKeyDown). -/
def pickManyPicksDelivered {Item : Type} (c : PickController)
    (ui : ListUI Item) (inputBoxValue : String) (elements : List Item) :
    PickController × ListUI Item :=
  if c.closed then (c, ui)
  else
    ({ c with liveSubs := c.liveSubs + 2 },
     { elements := elements, filterText := inputBoxValue,
       focused := ui.focused })

/-- State of the service around close and cancel: displayed models
ui.container.style.display not being none, hasController models
this.controller being set, result is the active controller result promise
(none while unsettled; some none means resolved with undefined; some
(some unit) means resolved with a proper value earlier), liveSubs and
disposedSubs are the active controller subscription counts, and hideCount
counts how many times this.hide() ran. -/
structure SessionState where
  displayed : Bool
  hasController : Bool
  result : Option (Option Unit)
  liveSubs : Nat
  disposedSubs : Nat
  hideCount : Nat
deriving DecidableEq

/-- Effect of this.controller.resolve(undefined) for each of the three
controller classes: resolve the result promise with undefined.  A promise
resolves at most once, so nothing happens when the promise is already
settled; on first settlement the continuation this.result.then(() =>
this.dispose()) (lines 122, 231, 291) disposes every registered
subscription. -/
def resolveUndefined (s : SessionState) : SessionState :=
  match s.result with
  | none =>
      { s with result := some none, liveSubs := 0,
               disposedSubs := s.disposedSubs + s.liveSubs }
  | some _ => s

/-- QuickInputService.close with ok undefined (lines 572 to 589): when the
widget is not displayed, return a settled promise with no effect.
Otherwise, when a controller is set, call controller.resolve(undefined);
that call returns no promise (PickOne and PickMany resolve return void,
TextInputController.resolve returns null on the non-confirm path), so
close falls through to this.hide() directly. -/
def closeUndefined (s : SessionState) : SessionState :=
  if s.displayed then
    let s1 := if s.hasController then resolveUndefined s else s
    { s1 with displayed := false, hideCount := s1.hideCount + 1 }
  else s

/-- QuickInputService.cancel (lines 864 to 871): close() when a controller
is set; otherwise hide2(), which does nothing when no controller2 is set
(the new-style API path, not used by these sessions). -/
def cancelSession (s : SessionState) : SessionState :=
  if s.hasController then closeUndefined s else s

/-- Reachable state used to settle claim C2: a textInput session created
with initial value ab and a validator (which issues the initial validation
request for ab), after the user types abc while the 100ms debounce of the
change handler has not fired yet. -/
def c2State : TextInputState :=
  textInputRun
    (mkTextInputController { value := some "ab", hasValidator := true })
    [TextInputEvent.typeRaw "abc"]

theorem getLast?_append_singleton {α : Type} (ys : List α) (a : α) :
    (ys ++ [a]).getLast? = some a := by
  induction ys with
  | nil => rfl
  | cons b l ih =>
      rw [List.cons_append]
      cases h : l ++ [a] with
      | nil => exact absurd h (by simp)
      | cons c m => rw [List.getLast?_cons_cons, ← h, ih]

theorem debounceAux_burst {α : Type} (w : Nat) :
    ∀ (rest : List (Nat × α)) (acc : α) (tLast : Nat),
      List.Chain (fun a b => b.1 < a.1 + w) (tLast, acc) rest →
      debounceAux w acc tLast rest = [lastSnd acc rest] := by
  intro rest
  induction rest with
  | nil => intro acc tLast _; rfl
  | cons hd tl ih =>
      intro acc tLast h
      obtain ⟨t, v⟩ := hd
      cases h with
      | cons hrel hchain =>
          show debounceAux w acc tLast ((t, v) :: tl) = _
          rw [debounceAux, if_pos hrel]
          exact ih v t hchain

theorem debounceAux_spaced {α : Type} (w : Nat) :
    ∀ (rest : List (Nat × α)) (acc : α) (tLast : Nat),
      List.Chain (fun a b => a.1 + w ≤ b.1) (tLast, acc) rest →
      debounceAux w acc tLast rest = acc :: rest.map Prod.snd := by
  intro rest
  induction rest with
  | nil => intro acc tLast _; rfl
  | cons hd tl ih =>
      intro acc tLast h
      obtain ⟨t, v⟩ := hd
      cases h with
      | cons hrel hchain =>
          show debounceAux w acc tLast ((t, v) :: tl) = _
          rw [debounceAux, if_neg (Nat.not_lt.mpr hrel), ih v t hchain]
          rfl

theorem debounceAux_final {α : Type} (w : Nat) :
    ∀ (rest : List (Nat × α)) (acc : α) (tLast : Nat),
      ∃ ys, debounceAux w acc tLast rest = ys ++ [lastSnd acc rest] := by
  intro rest
  induction rest with
  | nil => exact fun acc tLast => ⟨[], rfl⟩
  | cons hd tl ih =>
      intro acc tLast
      obtain ⟨t, v⟩ := hd
      show ∃ ys, debounceAux w acc tLast ((t, v) :: tl) = ys ++ _
      rw [debounceAux]
      by_cases hlt : t < tLast + w
      · rw [if_pos hlt]
        obtain ⟨ys, hys⟩ := ih v t
        exact ⟨ys, hys⟩
      · rw [if_neg hlt]
        obtain ⟨ys, hys⟩ := ih v t
        exact ⟨acc :: ys, by rw [hys]; rfl⟩

/-- Reachable state used for the C2 and C3 witnesses: the same session as
c2State after the debounced change handler has also fired for abc, so the
last requested validation value is abc. -/
def c2LateState : TextInputState :=
  textInputRun
    (mkTextInputController { value := some "ab", hasValidator := true })
    [TextInputEvent.typeRaw "abc", TextInputEvent.debounceFire]

/-- C1: whenever QuickInputService.show runs while a prior controller is
still active, the prior controller result promise is resolved with
undefined before the new controller is created and attached; the action
trace lists the resolve of the prior controller strictly before the attach
of the new one, the new controller is distinct from the prior one, and
afterwards this.controller holds exactly the new controller (the field is
single valued, so at most one controller is wired to the UI).  The last
conjunct records that resolve with no argument resolves the prior result
promise with undefined for a pick controller. -/
theorem c1_single_flight (s : ServiceState) (p : Nat)
    (hwf : ServiceStateWF s) (h : s.active = some p) :
    (showInput s).2 = [ShowAction.resolvePrior p, ShowAction.attachNew s.nextId] ∧
    p ∈ (showInput s).1.settledUndefined ∧
    (showInput s).1.active = some s.nextId ∧
    s.nextId ≠ p ∧
    (∀ focused : List Nat,
        pickOneResolveValue focused JSResolveArg.undef = JSValue.undef) := by
  have hne : s.nextId ≠ p := by
    intro he
    exact absurd (hwf p h) (by rw [he]; exact lt_irrefl p)
  refine ⟨?_, ?_, ?_, hne, fun focused => rfl⟩
  · simp [showInput, h]
  · simp [showInput, h]
  · simp [showInput, h]

theorem c1_single_flight_witness :
    (showInput { nextId := 5, active := some 2, settledUndefined := [] }).2 =
      [ShowAction.resolvePrior 2, ShowAction.attachNew 5] :=
  (c1_single_flight { nextId := 5, active := some 2, settledUndefined := [] } 2
    (fun p hp => by cases Option.some.inj hp; decide) rfl).1

/-- C2 counterexample: the claim states that a validator completion is
applied to the message only if the input value at completion time still
equals the requested value.  In the code the check (line 344) compares the
requested value with this.validationValue, which lags behind the input box
while the 100ms debounce is pending: in c2State the input box already holds
abc, the last requested validation value is still ab, and the completion
for ab does update the message. -/
theorem c2_counterexample :
    ¬ ∀ (st : TextInputState) (v : String) (m : Option String),
        st.inputValue ≠ v → (completeStep st v m).message = st.message := by
  intro hclaim
  have h2 := hclaim c2State "ab" (some "not a valid name") (by decide)
  exact absurd h2 (by decide)

/-- C2 (amended): a validator completion for requested value v is applied
to the displayed message only if v still equals the most recently requested
validation value (this.validationValue) when the completion runs; a
completion for a superseded request raises Canceled internally and changes
neither the message, nor the decoration, nor the result promise.  Because
this.validationValue is only updated by the debounced change handler, a raw
edit whose debounce has not yet fired does not suppress the result. -/
theorem c2_stale_validation_suppressed (st : TextInputState) (v : String)
    (m : Option String) (h : st.validationValue ≠ some v) :
    (completeStep st v m).message = st.message ∧
    (completeStep st v m).decoration = st.decoration ∧
    (completeStep st v m).result = st.result := by
  unfold completeStep
  simp [h]

theorem c2_stale_validation_suppressed_witness :
    (completeStep c2LateState "ab" (some "bad")).message = c2LateState.message ∧
    (completeStep c2LateState "ab" (some "bad")).decoration = c2LateState.decoration :=
  ⟨(c2_stale_validation_suppressed c2LateState "ab" (some "bad") (by decide)).1,
   (c2_stale_validation_suppressed c2LateState "ab" (some "bad") (by decide)).2.1⟩

/-- C3: confirming a textInput session via resolve(true) requests
validation of the current input value (first conjunct); when the validator
completes with a non-empty message the confirmation fails with Canceled and
the result promise is left unsettled, so the session stays open (second
conjunct); when the message is empty or absent the result promise resolves
with the current text (third conjunct). -/
theorem c3_confirm_validation_gate (st : TextInputState) (m : Option String) :
    (st.hasValidator = true →
        (resolveConfirm st m).1.validationValue = some st.inputValue) ∧
    (msgTruthy m = true →
        (resolveConfirm st m).2 = true ∧
        (resolveConfirm st m).1.result = st.result) ∧
    (msgTruthy m = false → st.result = none →
        (resolveConfirm st m).2 = false ∧
        (resolveConfirm st m).1.result = some (some st.inputValue)) := by
  refine ⟨?_, ?_, ?_⟩
  · intro hv
    unfold resolveConfirm updatedValidationStep
    by_cases hm : msgTruthy m <;>
      by_cases hne : st.validationValue = some st.inputValue <;>
        simp [hv, hm, hne]
  · intro hm
    unfold resolveConfirm updatedValidationStep
    by_cases hv : st.hasValidator <;>
      by_cases hne : st.validationValue = some st.inputValue <;>
        simp [hv, hm, hne]
  · intro hm hr
    unfold resolveConfirm updatedValidationStep settleResult
    by_cases hv : st.hasValidator <;>
      by_cases hne : st.validationValue = some st.inputValue <;>
        simp [hv, hm, hne, hr]

theorem c3_confirm_validation_gate_witness :
    (resolveConfirm c2LateState (some "bad")).2 = true ∧
    (resolveConfirm c2LateState none).1.result = some (some "abc") :=
  ⟨((c3_confirm_validation_gate c2LateState (some "bad")).2.1 (by decide)).1,
   ((c3_confirm_validation_gate c2LateState none).2.2 (by decide) (by decide)).2⟩

/-- C10: at construction of a textInput session with a validator, an
initial validation request is issued exactly when the initial input value
(parameters.value or the empty string) is non-empty, and it is issued for
that value; with an empty or absent initial value no validation request is
issued; in every case the message area initially shows the default
message. -/
theorem c10_initial_validation (params : TextInputParameters) :
    (mkTextInputController params).pendingValidations =
      (if params.hasValidator ∧ params.value.getD "" ≠ ""
        then [params.value.getD ""] else []) ∧
    (mkTextInputController params).message = defaultMessage params ∧
    (mkTextInputController params).inputValue = params.value.getD "" := by
  unfold mkTextInputController updatedValidationStep
  by_cases hv : params.hasValidator <;>
    by_cases he : params.value.getD "" = "" <;>
      simp [hv, he]

/-- C4: a candidate list delivered after a pick controller has been
disposed (closed flag set) has no effect for PickOne and for PickMany: the
controller is unchanged (in particular no event subscription is
registered) and the UI item set, filter and focus are untouched; and
disposing does set the closed flag. -/
theorem c4_stale_picks_ignored {Item : Type} (c : PickController)
    (ui : ListUI Item) (inputBoxValue : String) (elements : List Item)
    (h : c.closed = true) :
    pickOnePicksDelivered c ui inputBoxValue elements = (c, ui) ∧
    pickManyPicksDelivered c ui inputBoxValue elements = (c, ui) ∧
    (∀ c2 : PickController, (PickController.dispose c2).closed = true) := by
  unfold pickOnePicksDelivered pickManyPicksDelivered
  exact ⟨by simp [h], by simp [h], fun c2 => rfl⟩

theorem c4_stale_picks_ignored_witness :
    pickOnePicksDelivered ⟨true, 0, 0⟩ (⟨[], "", none⟩ : ListUI Nat) "x"
        [1, 2, 3] = (⟨true, 0, 0⟩, ⟨[], "", none⟩) ∧
    pickManyPicksDelivered ⟨true, 0, 0⟩ (⟨[], "", none⟩ : ListUI Nat) "x"
        [1, 2, 3] = (⟨true, 0, 0⟩, ⟨[], "", none⟩) :=
  ⟨(c4_stale_picks_ignored ⟨true, 0, 0⟩ ⟨[], "", none⟩ "x" [1, 2, 3] rfl).1,
   (c4_stale_picks_ignored ⟨true, 0, 0⟩ ⟨[], "", none⟩ "x" [1, 2, 3] rfl).2.1⟩

/-- C5: cancel settles the active controller result promise with undefined
(resolving, never rejecting: the cancel path contains no rejection), it is
idempotent, cancelling with no UI displayed is a no-op, and cancelling
after the result promise has already settled leaves the settled value
unchanged. -/
theorem c5_cancel_settles (s : SessionState) :
    (s.displayed = true → s.hasController = true →
        (cancelSession s).result = some (s.result.getD none)) ∧
    cancelSession (cancelSession s) = cancelSession s ∧
    (s.displayed = false → cancelSession s = s) ∧
    (∀ r, s.result = some r → (cancelSession s).result = some r) := by
  obtain ⟨d, hc, r, ls, ds, n⟩ := s
  cases d <;> cases hc <;> rcases r with _ | r <;>
    simp [cancelSession, closeUndefined, resolveUndefined]

theorem c5_cancel_settles_witness :
    (cancelSession ⟨true, true, none, 2, 0, 0⟩).result = some none :=
  (c5_cancel_settles ⟨true, true, none, 2, 0, 0⟩).1 rfl rfl

/-- C6: the debouncer used for validation (window 100ms, merge keeping the
latest value) delivers, for a burst of changes each arriving within less
than the window after the previous one, exactly one value, the last of the
burst; for changes spaced at or beyond the window it delivers one value per
change; the final value of a sequence is always the last delivery, never
dropped.  The last conjunct ties a delivery to validation: one fired
debounced change on a session whose value differs from the last requested
validation value issues exactly one validateInput request, for the current
input value. -/
theorem c6_trailing_edge_debounce :
    (∀ (w t : Nat) (v : String) (rest : List (Nat × String)),
        List.Chain (fun a b => b.1 < a.1 + w) (t, v) rest →
        debounceDeliveries w ((t, v) :: rest) = [lastSnd v rest]) ∧
    (∀ (w t : Nat) (v : String) (rest : List (Nat × String)),
        List.Chain (fun a b => a.1 + w ≤ b.1) (t, v) rest →
        debounceDeliveries w ((t, v) :: rest) = v :: rest.map Prod.snd) ∧
    (∀ (w t : Nat) (v : String) (rest : List (Nat × String)),
        ∃ ys, debounceDeliveries w ((t, v) :: rest) = ys ++ [lastSnd v rest] ∧
          (debounceDeliveries w ((t, v) :: rest)).getLast? = some (lastSnd v rest)) ∧
    (∀ st : TextInputState, st.hasValidator = true →
        st.validationValue ≠ some st.inputValue →
        (updatedValidationStep st).pendingValidations =
          st.pendingValidations ++ [st.inputValue]) := by
  refine ⟨?_, ?_, ?_, ?_⟩
  · intro w t v rest h
    exact debounceAux_burst w rest v t h
  · intro w t v rest h
    exact debounceAux_spaced w rest v t h
  · intro w t v rest
    obtain ⟨ys, hys⟩ := debounceAux_final w rest v t
    refine ⟨ys, hys, ?_⟩
    show (debounceAux w v t rest).getLast? = _
    rw [hys, getLast?_append_singleton]
  · intro st h1 h2
    unfold updatedValidationStep
    simp [h1, h2]

theorem c6_trailing_edge_debounce_witness :
    debounceDeliveries 100
        [(0, "v1"), (10, "v2"), (20, "v3"), (30, "v4"), (40, "v5")] = ["v5"] ∧
    debounceDeliveries 100 [(0, "a"), (100, "b"), (200, "c")] = ["a", "b", "c"] :=
  ⟨c6_trailing_edge_debounce.1 100 0 "v1"
      [(10, "v2"), (20, "v3"), (30, "v4"), (40, "v5")]
      (by norm_num [List.chain_cons]),
   c6_trailing_edge_debounce.2.1 100 0 "a" [(100, "b"), (200, "c")]
      (by norm_num [List.chain_cons])⟩

/-- C7 counterexample: the claim states that in every active pick session
DownArrow moves the list focus forward by one.  The PickManyController
onKeyDown handler issues focus First (not Next): with three items and the
focus on index 1, DownArrow puts the focus on index 0, not on index 2. -/
theorem c7_counterexample :
    ¬ ∀ (n i : Nat), i + 1 < n →
        keyFocusResult pickManyOnKeyDown Key.downArrow n (some i) = some (i + 1) := by
  intro hclaim
  exact absurd (hclaim 3 1 (by decide)) (by decide)

/-- C7 (amended): in a PickOne session DownArrow moves the list focus
forward by one (focus Next) and UpArrow backward by one (focus Previous),
without moving DOM focus into the list; in a PickMany session DownArrow
moves the focus to the first item (focus First) and UpArrow to the last
item (focus Last), and both move DOM focus into the list. -/
theorem c7_keyboard_navigation (n i : Nat) (h : i + 1 < n) :
    keyFocusResult pickOneOnKeyDown Key.downArrow n (some i) = some (i + 1) ∧
    keyFocusResult pickOneOnKeyDown Key.upArrow n (some i) = some (i - 1) ∧
    (pickOneOnKeyDown Key.downArrow).domFocus = false ∧
    (pickOneOnKeyDown Key.upArrow).domFocus = false ∧
    keyFocusResult pickManyOnKeyDown Key.downArrow n (some i) = some 0 ∧
    keyFocusResult pickManyOnKeyDown Key.upArrow n (some i) = some (n - 1) ∧
    (pickManyOnKeyDown Key.downArrow).domFocus = true ∧
    (pickManyOnKeyDown Key.upArrow).domFocus = true := by
  have hn : n ≠ 0 := by omega
  have hmin : min (i + 1) (n - 1) = i + 1 := Nat.min_eq_left (by omega)
  refine ⟨?_, ?_, rfl, rfl, ?_, ?_, rfl, rfl⟩
  · show applyFocusCmd n (some i) FocusCmd.next = some (i + 1)
    simp [applyFocusCmd, hn, hmin]
  · show applyFocusCmd n (some i) FocusCmd.previous = some (i - 1)
    simp [applyFocusCmd, hn]
  · show applyFocusCmd n (some i) FocusCmd.first = some 0
    simp [applyFocusCmd, hn]
  · show applyFocusCmd n (some i) FocusCmd.last = some (n - 1)
    simp [applyFocusCmd, hn]

theorem c7_keyboard_navigation_witness :
    keyFocusResult pickOneOnKeyDown Key.downArrow 3 (some 1) = some 2 ∧
    keyFocusResult pickManyOnKeyDown Key.downArrow 3 (some 1) = some 0 :=
  ⟨(c7_keyboard_navigation 3 1 (by decide)).1,
   (c7_keyboard_navigation 3 1 (by decide)).2.2.2.2.1⟩

/-- C8 counterexample: the claim states that when no item is focused the
result promise resolves with the explicit ok argument passed to resolve.
With ok === true and an empty focus list, the code resolves with
getFocusedElements()[0], which is undefined, not with the argument true. -/
theorem c8_counterexample :
    ¬ ∀ (focused : List Nat) (ok : JSResolveArg Nat),
        focused = [] → pickOneResolveValue focused ok = argAsValue ok := by
  intro hclaim
  exact absurd (hclaim [] JSResolveArg.okTrue rfl) (by decide)

/-- C8 (amended): PickOne resolve with ok === true resolves the result
promise with the first currently focused item, or with undefined when no
item is focused; resolve with any other ok resolves the promise with that
argument itself (undefined or a pass-through thenable), regardless of
focus. -/
theorem c8_pickone_resolution {Item : Type} (focused : List Item)
    (ok : JSResolveArg Item) :
    (ok = JSResolveArg.okTrue →
        pickOneResolveValue focused ok =
          (match focused.head? with
            | some x => JSValue.item x
            | none => JSValue.undef)) ∧
    (ok ≠ JSResolveArg.okTrue →
        pickOneResolveValue focused ok = argAsValue ok) := by
  constructor
  · intro h
    subst h
    rfl
  · intro h
    cases ok with
    | okTrue => exact absurd rfl h
    | undef => rfl
    | thenableNever => rfl

theorem c8_pickone_resolution_witness :
    pickOneResolveValue [7, 8] (JSResolveArg.okTrue : JSResolveArg Nat) =
        JSValue.item 7 ∧
    pickOneResolveValue ([] : List Nat) JSResolveArg.undef = JSValue.undef :=
  ⟨(c8_pickone_resolution [7, 8] JSResolveArg.okTrue).1 rfl,
   (c8_pickone_resolution [] JSResolveArg.undef).2 (by decide)⟩

/-- C9: closing twice has no effect beyond the first close (so hide runs at
most once more and nothing throws, the functions being total), one close
never loses or duplicates a subscription (the disposed and live counts are
conserved), a close of a displayed session with a controller and an
unsettled result disposes every live subscription exactly once and fires
hide exactly once, a close with no UI displayed is a no-op, and disposing a
pick controller twice equals disposing it once. -/
theorem c9_double_close_safe (s : SessionState) (c : PickController) :
    closeUndefined (closeUndefined s) = closeUndefined s ∧
    (closeUndefined (closeUndefined s)).hideCount = (closeUndefined s).hideCount ∧
    ((closeUndefined s).disposedSubs + (closeUndefined s).liveSubs =
        s.disposedSubs + s.liveSubs) ∧
    (s.displayed = true → s.hasController = true → s.result = none →
        (closeUndefined s).liveSubs = 0 ∧
        (closeUndefined s).disposedSubs = s.disposedSubs + s.liveSubs ∧
        (closeUndefined s).hideCount = s.hideCount + 1) ∧
    (s.displayed = false → closeUndefined s = s) ∧
    PickController.dispose (PickController.dispose c) = PickController.dispose c := by
  obtain ⟨d, hc, r, ls, ds, n⟩ := s
  cases d <;> cases hc <;> rcases r with _ | r <;>
    simp [closeUndefined, resolveUndefined, PickController.dispose]

theorem c9_double_close_safe_witness :
    (closeUndefined ⟨true, true, none, 3, 0, 0⟩).disposedSubs = 3 ∧
    (closeUndefined ⟨true, true, none, 3, 0, 0⟩).hideCount = 1 :=
  ⟨((c9_double_close_safe ⟨true, true, none, 3, 0, 0⟩ ⟨false, 0, 0⟩).2.2.2.1
      rfl rfl rfl).2.1,
   ((c9_double_close_safe ⟨true, true, none, 3, 0, 0⟩ ⟨false, 0, 0⟩).2.2.2.1
      rfl rfl rfl).2.2⟩

end QuickInputModel
